import Mathlib

/-!
Shallow embedding of the HoneyShield threat-scoring and alerting engine
(`src/ml_phishing_detector.py`, `src/ml_first_engine.py`, `src/alert_monitor.py`,
`src/analysis_engine.py`, `src/dashboard.py`), together with proofs of
spec-level properties about it.

External libraries (sklearn's vectorizer/classifier, TextBlob sentiment,
sqlite, the wall clock) are modelled as oracles: abstract inputs carried in
the state, so that everything the repository's own code computes from them
is embedded faithfully.
-/

set_option maxRecDepth 4000

namespace HoneyShield

/-! ## Python-level string helpers -/

/-- Python's `\w` word-character class (ASCII): letters, digits, underscore. -/
def isWordChar (c : Char) : Bool := c.isAlphanum || c = '_'

/-- Character-wise lower-casing, as Python's `str.lower` on ASCII text. -/
def lowerChars (cs : List Char) : List Char := cs.map Char.toLower

/-- Python's `needle in haystack` substring test. -/
def containsSub : List Char → List Char → Bool
  | needle, [] => needle.isEmpty
  | needle, c :: rest => needle.isPrefixOf (c :: rest) || containsSub needle rest

/-- Python's `text.split()`: split on whitespace runs, dropping empty pieces. -/
def pyWords (cs : List Char) : List (List Char) :=
  (cs.splitOnP Char.isWhitespace).filter (fun w => !w.isEmpty)

/-- Python's `int()` applied to a nonnegative/negative rational: truncation
toward zero. -/
def pyInt (q : ℚ) : ℤ := if q < 0 then ⌈q⌉ else ⌊q⌋

/-- Does keyword `kw` match at the head of `cs`, with a trailing `\b`
word boundary (end of string, or next char not a word char)? -/
def kwMatch : List Char → List Char → Bool
  | [], [] => true
  | [], c :: _ => !isWordChar c
  | _ :: _, [] => false
  | k :: ks, c :: cs => k = c && kwMatch ks cs

/-- First keyword of the alternation matching at the head of `cs`
(regex alternation tries the alternatives in listed order); returns the
length consumed. -/
def firstHit : List (List Char) → List Char → Option ℕ
  | [], _ => none
  | kw :: rest, cs => if kwMatch kw cs then some kw.length else firstHit rest cs

/-- Fuel-driven scan implementing `len(re.findall(r'\b(w1|w2|...)\b', text))`:
non-overlapping matches, scanning left to right; `atBoundary` records whether
a `\b` holds before the current position. -/
def scanCountAux (kws : List (List Char)) : ℕ → Bool → List Char → ℕ
  | 0, _, _ => 0
  | _ + 1, _, [] => 0
  | fuel + 1, atBoundary, c :: rest =>
    if atBoundary then
      match firstHit kws (c :: rest) with
      | some n =>
        if n = 0 then scanCountAux kws fuel (!isWordChar c) rest
        else
          let lastc := (((c :: rest).drop (n - 1)).headD ' ')
          1 + scanCountAux kws fuel (!isWordChar lastc) ((c :: rest).drop n)
      | none => scanCountAux kws fuel (!isWordChar c) rest
    else scanCountAux kws fuel (!isWordChar c) rest

/-- `len(re.findall(r'\b(kws alternation)\b', text_lower))`. -/
def countWordMatches (kws : List String) (cs : List Char) : ℕ :=
  scanCountAux (kws.map String.data) (cs.length + 1) true cs

/-- Character class accepted after `http[s]?://` in the link regex of
`extract_advanced_features`: `[a-zA-Z]`, `[0-9]`, the range `[$-_]` (with the
redundant `@.&+`), and `[!*\(\),]`; `%xx` escapes are subsumed by `%`
lying inside the `$`–`_` range. -/
def isLinkChar (c : Char) : Bool :=
  ('a' ≤ c && c ≤ 'z') || ('A' ≤ c && c ≤ 'Z') || ('0' ≤ c && c ≤ '9') ||
  ('$' ≤ c && c ≤ '_') || c = '!' || c = '*' || c = '\\' || c = '(' || c = ')' || c = ','

/-- Fuel-driven scan implementing the `link_count` regex findall: an
`http://` or `https://` scheme followed by a maximal nonempty run of
`isLinkChar` characters, counted non-overlapping left to right. -/
def countLinksAux : ℕ → List Char → ℕ
  | 0, _ => 0
  | _ + 1, [] => 0
  | fuel + 1, c :: rest =>
    let cs := c :: rest
    let schemeLen : ℕ :=
      if "https://".data.isPrefixOf cs then 8
      else if "http://".data.isPrefixOf cs then 7
      else 0
    if schemeLen = 0 then countLinksAux fuel rest
    else
      let run := (cs.drop schemeLen).takeWhile isLinkChar
      if run.isEmpty then countLinksAux fuel rest
      else 1 + countLinksAux fuel (cs.drop (schemeLen + run.length))

def countLinks (cs : List Char) : ℕ := countLinksAux (cs.length + 1) cs

/-! ## Feature extractor (`MLPhishingDetector.extract_advanced_features`) -/

/-- The named feature vector produced by `extract_advanced_features`.
Counts are naturals; ratio-valued features are rationals (Python floats,
whose exact values here are the exact quotients). -/
structure Features where
  text_length : ℕ
  word_count : ℕ
  sentence_count : ℕ
  avg_sentence_length : ℚ
  avg_word_length : ℚ
  urgency_score : ℕ
  authority_score : ℕ
  scarcity_score : ℕ
  social_proof_score : ℕ
  info_request_score : ℕ
  financial_score : ℕ
  platform_migration_score : ℕ
  question_marks : ℕ
  exclamation_marks : ℕ
  capital_ratio : ℚ
  link_count : ℕ
  unique_word_ratio : ℚ
  long_word_count : ℕ
  positive_emotion_score : ℕ
  negative_emotion_score : ℕ
  deriving DecidableEq, Repr

/-- Keyword vocabularies, verbatim from the regex alternations in
`extract_advanced_features` (including the duplicated `payment`). -/
def urgencyKws : List String :=
  ["urgent", "immediately", "asap", "quick", "fast", "now", "instant", "right away", "hurry"]

def authorityKws : List String :=
  ["official", "government", "legal", "compliance", "required", "mandatory", "authorized",
   "security", "verify"]

def scarcityKws : List String :=
  ["limited", "only", "exclusive", "last chance", "final", "ending soon", "never again"]

def socialProofKws : List String :=
  ["everyone", "people", "others", "join", "many", "most", "popular"]

def personalInfoKws : List String :=
  ["phone", "number", "email", "address", "bank", "account", "password", "verify",
   "confirm", "details"]

def financialKws : List String :=
  ["money", "payment", "investment", "profit", "fund", "cash", "price", "fee", "cost",
   "payment"]

def platformKws : List String :=
  ["whatsapp", "telegram", "signal", "wechat", "viber", "skype", "email me", "call me",
   "text me"]

def positiveEmotionKws : List String :=
  ["great", "amazing", "wonderful", "impressive", "fantastic", "excellent", "perfect"]

def negativeEmotionKws : List String :=
  ["urgent", "suspended", "terminated", "legal", "consequences", "problem", "issue"]

/-- Number of sentence segments of `re.split(r'[.!?]+', text)` whose `strip()`
is nonempty (splitting at every delimiter character inserts only empty
segments relative to run-splitting, so the nonblank count is unchanged). -/
def sentenceSegCount (cs : List Char) : ℕ :=
  ((cs.splitOnP (fun c => c = '.' || c = '!' || c = '?')).filter
    (fun s => s.any (fun c => !c.isWhitespace))).length

/-- `MLPhishingDetector.extract_advanced_features`. -/
def extract_advanced_features (text : String) : Features :=
  let cs := text.data
  let text_lower := lowerChars cs
  let words := pyWords cs
  let word_count := words.length
  let sentence_count := max (sentenceSegCount cs) 1
  { text_length := cs.length
    word_count := word_count
    sentence_count := sentence_count
    avg_sentence_length := (word_count : ℚ) / (sentence_count : ℚ)
    avg_word_length :=
      ((words.map List.length).sum : ℚ) / (max word_count 1 : ℚ)
    urgency_score := countWordMatches urgencyKws text_lower
    authority_score := countWordMatches authorityKws text_lower
    scarcity_score := countWordMatches scarcityKws text_lower
    social_proof_score := countWordMatches socialProofKws text_lower
    info_request_score := countWordMatches personalInfoKws text_lower
    financial_score := countWordMatches financialKws text_lower
    platform_migration_score := countWordMatches platformKws text_lower
    question_marks := cs.countP (fun c => c = '?')
    exclamation_marks := cs.countP (fun c => c = '!')
    capital_ratio := ((cs.countP Char.isUpper : ℕ) : ℚ) / (max cs.length 1 : ℚ)
    link_count := countLinks cs
    unique_word_ratio := ((words.dedup.length : ℕ) : ℚ) / (max word_count 1 : ℚ)
    long_word_count := (words.filter (fun w => w.length > 6)).length
    positive_emotion_score := countWordMatches positiveEmotionKws text_lower
    negative_emotion_score := countWordMatches negativeEmotionKws text_lower }

/-! ## ML phishing detector (`MLPhishingDetector`) -/

/-- Detector state. The fitted sklearn vectorizer/classifier pair is external
code; it is modelled by the probability function it induces (the positive-class
`predict_proba` of the transformed text), which may fail like any external
call. `feature_names` mirrors the stored vocabulary metadata. -/
structure MLPhishingDetector where
  classifierProb : String → Except String ℚ
  is_trained : Bool
  feature_names : List String

/-- The explanation dictionary built by `_generate_detailed_explanation`. -/
structure Explanation where
  probability : ℚ
  risk_level : String
  risk_score : ℤ
  key_indicators : List String
  behavioral_patterns : List String
  feature_analysis : Features
  confidence : ℚ
  explanation_summary : String
  deriving DecidableEq, Repr

/-- `_generate_explanation_summary`. -/
def generate_explanation_summary (indicators patterns : List String) : String :=
  if indicators.isEmpty && patterns.isEmpty then
    "No strong phishing indicators detected"
  else
    let elements := indicators ++ patterns
    let summary := "Phishing detection based on: " ++ String.intercalate ", " (elements.take 3)
    if elements.length > 3 then
      summary ++ " and " ++ toString (elements.length - 3) ++ " more indicators"
    else summary

/-- `_generate_detailed_explanation`. -/
def generate_detailed_explanation (probability : ℚ) (features : Features) : Explanation :=
  let risk_level :=
    if probability > 8 / 10 then "CRITICAL"
    else if probability > 6 / 10 then "HIGH"
    else if probability > 4 / 10 then "MEDIUM"
    else "LOW"
  let high_impact_features :=
    (if features.urgency_score ≥ 2 then
      ["High urgency language (" ++ toString features.urgency_score ++ " instances)"] else []) ++
    (if features.authority_score ≥ 2 then
      ["Authority impersonation (" ++ toString features.authority_score ++ " instances)"] else []) ++
    (if features.info_request_score ≥ 2 then
      ["Personal information requests (" ++ toString features.info_request_score ++ " instances)"]
     else []) ++
    (if features.platform_migration_score ≥ 1 then
      ["Platform migration attempt (" ++ toString features.platform_migration_score ++
       " instances)"] else []) ++
    (if features.financial_score ≥ 2 then
      ["Financial terminology (" ++ toString features.financial_score ++ " instances)"] else []) ++
    (if features.link_count ≥ 1 then ["Contains suspicious links"] else []) ++
    (if features.capital_ratio > 3 / 10 then ["Excessive capitalization"] else [])
  let behavioral_patterns :=
    (if features.scarcity_score > 0 then ["Scarcity tactics"] else []) ++
    (if features.social_proof_score > 0 then ["Social proof manipulation"] else []) ++
    (if features.negative_emotion_score > features.positive_emotion_score then
      ["Fear/negative emotion dominance"] else [])
  { probability := probability
    risk_level := risk_level
    risk_score := pyInt (probability * 100)
    key_indicators := high_impact_features
    behavioral_patterns := behavioral_patterns
    feature_analysis := features
    confidence := min (probability + 1 / 10) (95 / 100)
    explanation_summary := generate_explanation_summary high_impact_features behavioral_patterns }

/-- `MLPhishingDetector.predict`: raises unless trained, extracts features,
queries the fitted ensemble for the positive-class probability, and returns
it with the detailed explanation. -/
def predict (d : MLPhishingDetector) (text : String) : Except String (ℚ × Explanation) :=
  if !d.is_trained then
    .error "Model must be trained before making predictions"
  else
    let advanced_features := extract_advanced_features text
    match d.classifierProb text with
    | .error e => .error e
    | .ok probability =>
      .ok (probability, generate_detailed_explanation probability advanced_features)

/-! ## Model persistence (`save_model` / `load_model`) -/

/-- The pickled bundle written by `save_model`: the dict
`{vectorizer, classifier, is_trained, feature_names}`, with the fitted
vectorizer/classifier pair again represented by its induced probability
function. -/
structure PickledModel where
  classifierProb : String → Except String ℚ
  is_trained : Bool
  feature_names : List String

/-- `MLPhishingDetector.save_model`: pickles the model dict to the file. -/
def save_model (d : MLPhishingDetector) : PickledModel :=
  { classifierProb := d.classifierProb
    is_trained := d.is_trained
    feature_names := d.feature_names }

/-- Python's `pickle.dump` requires two positional arguments (object, file);
`load_model` invokes it as `pickle.dump(f)` with the file alone, which raises
`TypeError` before anything is read. -/
def pickleDumpMissingArg (_f : PickledModel) : Except String PickledModel :=
  .error "TypeError: dump() missing 1 required positional argument: 'file'"

/-- `MLPhishingDetector.load_model` as written in the source: it calls
`pickle.dump(f)` (not `pickle.load(f)`) to obtain `model_data`, so the
`TypeError` propagates and no field is ever assigned. -/
def load_model (_d : MLPhishingDetector) (f : PickledModel) : Except String MLPhishingDetector :=
  match pickleDumpMissingArg f with
  | .error e => .error e
  | .ok model_data =>
    .ok { classifierProb := model_data.classifierProb
          is_trained := model_data.is_trained
          feature_names := model_data.feature_names }

/-- The evident intent of `load_model` (its docstring says "Load trained
model", mirroring `save_model`): read the pickled dict back with
`pickle.load(f)` and restore every field. -/
def load_model_intended (_d : MLPhishingDetector) (f : PickledModel) :
    Except String MLPhishingDetector :=
  .ok { classifierProb := f.classifierProb
        is_trained := f.is_trained
        feature_names := f.feature_names }

/-! ## ML-first analysis engine (`MLFirstAnalysisEngine`) -/

/-- `_get_temporal_context` output. -/
structure TemporalContext where
  hour_of_day : ℕ
  day_of_week : ℕ
  time_context : String
  deriving DecidableEq, Repr

/-- `_classify_threat_type` output. -/
structure ThreatClassification where
  primary_types : List String
  secondary_types : List String
  confidence : ℚ
  techniques_detected : List String
  deriving DecidableEq, Repr

/-- The analysis report returned by `analyze_message` (the datetime-valued
`analysis_timestamp` string is environment data and is represented by the
clock fields of the temporal context). -/
structure AnalysisReport where
  final_score : ℤ
  risk_level : String
  ml_probability : ℚ
  ml_confidence : ℚ
  key_indicators : List String
  behavioral_patterns : List String
  feature_analysis : Features
  temporal_context : TemporalContext
  recommended_action : String
  threat_classification : ThreatClassification
  deriving DecidableEq, Repr

/-- Engine state: the detector, the model-loaded flag, and the ambient wall
clock sampled by `datetime.now()` (hour of day and weekday). -/
structure MLFirstAnalysisEngine where
  ml_detector : MLPhishingDetector
  model_loaded : Bool
  hour_of_day : ℕ
  day_of_week : ℕ

/-- `_get_temporal_context`. -/
def get_temporal_context (e : MLFirstAnalysisEngine) : TemporalContext :=
  { hour_of_day := e.hour_of_day
    day_of_week := e.day_of_week
    time_context :=
      if 9 ≤ e.hour_of_day ∧ e.hour_of_day ≤ 17 ∧ e.day_of_week < 5 then "business_hours"
      else "off_hours" }

/-- `_get_recommended_action`: fixed per-tier template with a default. -/
def get_recommended_action (risk_level : String) : String :=
  if risk_level = "CRITICAL" then
    "🚨 IMMEDIATE ACTION REQUIRED: Block sender, report to security team, and investigate potential breach"
  else if risk_level = "HIGH" then
    "🔴 HIGH PRIORITY: Isolate conversation, monitor for patterns, and prepare incident response"
  else if risk_level = "MEDIUM" then
    "🟡 MEDIUM PRIORITY: Flag for review, monitor engagement, and gather additional context"
  else if risk_level = "LOW" then
    "🟢 LOW PRIORITY: Continue normal monitoring with standard precautions"
  else "Monitor with standard security protocols"

/-- Python's `any(sub in s.lower() for s in strings)`. -/
def anyContains (strings : List String) (sub : String) : Bool :=
  strings.any (fun s => containsSub sub.data (lowerChars s.data))

/-- `_classify_threat_type`. -/
def classify_threat_type (key_indicators behavioral_patterns : List String) :
    ThreatClassification :=
  let pairs : List (String × String × ℚ) :=
    [("urgency", "Urgency-Based Phishing", 3 / 10),
     ("authority", "Authority Impersonation", 3 / 10),
     ("financial", "Financial Scam", 2 / 10),
     ("platform migration", "Platform Migration Attack", 2 / 10),
     ("personal information", "Information Harvesting", 2 / 10)]
  let hits := pairs.filter (fun p => anyContains key_indicators p.1)
  let threat_types := hits.map (fun p => p.2.1)
  let confidence := min ((hits.map (fun p => p.2.2)).sum) 1
  { primary_types :=
      if threat_types.isEmpty then ["Unclassified Social Engineering"]
      else threat_types.take 2
    secondary_types := if threat_types.length > 2 then threat_types.drop 2 else []
    confidence := confidence
    techniques_detected := behavioral_patterns }

/-- `MLFirstAnalysisEngine.analyze_message`: requires a loaded model, runs the
ML prediction, and converts the probability into the 0–100 final score via
`int(ml_probability * 100)`. -/
def analyze_message (e : MLFirstAnalysisEngine) (message_content : String) :
    Except String AnalysisReport :=
  if !e.model_loaded then
    .error "ML model must be loaded before analysis. Run load_model() first."
  else
    match predict e.ml_detector message_content with
    | .error err => .error err
    | .ok (ml_probability, ml_explanation) =>
      .ok { final_score := pyInt (ml_probability * 100)
            risk_level := ml_explanation.risk_level
            ml_probability := ml_probability
            ml_confidence := ml_explanation.confidence
            key_indicators := ml_explanation.key_indicators
            behavioral_patterns := ml_explanation.behavioral_patterns
            feature_analysis := ml_explanation.feature_analysis
            temporal_context := get_temporal_context e
            recommended_action := get_recommended_action ml_explanation.risk_level
            threat_classification :=
              classify_threat_type ml_explanation.key_indicators
                ml_explanation.behavioral_patterns }

/-- One entry of the `batch_analyze` result list: the analysis report, or the
error dict `{error, final_score: 0, risk_level: 'UNKNOWN'}` appended when a
message's analysis raised. -/
inductive BatchResult where
  | ok (report : AnalysisReport)
  | failed (error : String)
  deriving DecidableEq, Repr

/-- `final_score` field of a batch entry. -/
def BatchResult.finalScore : BatchResult → ℤ
  | .ok r => r.final_score
  | .failed _ => 0

/-- `risk_level` field of a batch entry. -/
def BatchResult.riskLevel : BatchResult → String
  | .ok r => r.risk_level
  | .failed _ => "UNKNOWN"

/-- The per-message body of the `batch_analyze` loop: `try` the analysis,
`except` capture the error entry. -/
def batchEntry (e : MLFirstAnalysisEngine) (message : String) : BatchResult :=
  match analyze_message e message with
  | .ok analysis => .ok analysis
  | .error err => .failed err

/-- `MLFirstAnalysisEngine.batch_analyze`. -/
def batch_analyze (e : MLFirstAnalysisEngine) (messages : List String) :
    Except String (List BatchResult) :=
  if !e.model_loaded then
    .error "ML model must be loaded before analysis"
  else
    .ok (messages.map (batchEntry e))

/-! ## Alert creation (`AlertMonitor.process_message_as_alert`) -/

/-- The scraped message tuple handled by the alert monitor. -/
structure MessageData where
  senderName : String
  senderUrl : Option String
  messageContent : String
  deriving DecidableEq, Repr

/-- The `alert_data` dict handed to `AlertManager.create_alert` and persisted
as the alert record. -/
structure AlertData where
  severity : String
  source_platform : String
  sender_name : String
  sender_profile : String
  message_content : String
  risk_score : ℤ
  threat_type : String
  indicators : String
  recommended_action : String
  ml_confidence : ℚ
  deriving DecidableEq, Repr

/-- Builds the `alert_data` dict from the analysis result, field by field as
in `process_message_as_alert`. -/
def mkAlertData (msg : MessageData) (r : AnalysisReport) : AlertData :=
  { severity := r.risk_level
    source_platform := "LinkedIn"
    sender_name := msg.senderName
    sender_profile := msg.senderUrl.getD ""
    message_content := msg.messageContent
    risk_score := r.final_score
    threat_type :=
      match r.threat_classification.primary_types with
      | [] => "Unknown"
      | t :: _ => t
    indicators := String.intercalate ", " r.key_indicators
    recommended_action := r.recommended_action
    ml_confidence := r.ml_confidence }

/-- `AlertMonitor.process_message_as_alert`: analyzes the message and invokes
`create_alert` exactly when `final_score ≥ 40`; returns the alert data passed
to `create_alert` (or `none`) together with the analysis result. -/
def process_message_as_alert (e : MLFirstAnalysisEngine) (msg : MessageData) :
    Except String (Option AlertData × AnalysisReport) :=
  match analyze_message e msg.messageContent with
  | .error err => .error err
  | .ok analysis_result =>
    if analysis_result.final_score ≥ 40 then
      .ok (some (mkAlertData msg analysis_result), analysis_result)
    else
      .ok (none, analysis_result)

/-! ## Rule-based scorer (`AnalysisEngine`) -/

/-- The `scoring` and `analysis` sections of `config/config.yaml` (the file
itself is not part of the repository; the scorer is parametric in it, with
the point weights as naturals). -/
structure ScoringConfig where
  suspicious_keywords : List String
  high_risk_phrases : List String
  keyword_weight : ℕ
  sentiment_weight : ℕ
  relationship_escalation_weight : ℕ
  request_private_info_weight : ℕ

/-- A token of the hand-written detection regexes: a literal character, the
`.` wildcard, or a `(a|b)` alternation of literal words. -/
inductive RTok where
  | lit (c : Char)
  | dot
  | alt (ws : List (List Char))

/-- Does the token pattern match at the head of `cs` (regex semantics: `.`
matches any character except newline; alternation tries each word)? -/
def matchToksAt : List RTok → List Char → Bool
  | [], _ => true
  | RTok.lit k :: ts, c :: cs => k = c && matchToksAt ts cs
  | RTok.dot :: ts, c :: cs => c ≠ '\n' && matchToksAt ts cs
  | RTok.alt ws :: ts, cs =>
    ws.any (fun w => w.isPrefixOf cs && matchToksAt ts (cs.drop w.length))
  | _ :: _, [] => false

/-- `re.search`: does the pattern match at some position of `cs`? -/
def searchToks (pat : List RTok) : List Char → Bool
  | [] => matchToksAt pat []
  | c :: rest => matchToksAt pat (c :: rest) || searchToks pat rest

/-- Compiles one of the literal-and-dot pattern strings (`'phone.number'`,
`'we.need.to.talk'`, …) into tokens. -/
def dotPat (s : String) : List RTok :=
  s.data.map (fun c => if c = '.' then RTok.dot else RTok.lit c)

/-- `r'let.me.(call|meet).you'`. -/
def letMeCallMeetYouPat : List RTok :=
  dotPat "let" ++ [RTok.dot] ++ dotPat "me" ++
  [RTok.dot, RTok.alt ["call".data, "meet".data], RTok.dot] ++ dotPat "you"

/-- The `escalation_patterns` list of `detect_relationship_escalation`. -/
def escalationPatterns : List (List RTok) :=
  [dotPat "immediately", dotPat "as soon as possible", dotPat "urgent",
   dotPat "right away", letMeCallMeetYouPat, dotPat "we.need.to.talk"]

/-- The `private_info_patterns` list of `detect_private_info_request`. -/
def privateInfoPatterns : List (List RTok) :=
  [dotPat "phone.number", dotPat "whatsapp", dotPat "telegram", dotPat "personal.email",
   dotPat "home.address", dotPat "send.me.your", dotPat "give.me.your"]

/-- `AnalysisEngine.analyze_keywords`: accumulates `keyword_weight` per
suspicious-keyword substring hit and `keyword_weight * 2` per high-risk-phrase
substring hit (case-insensitive), collecting the matched strings. -/
def analyze_keywords (cfg : ScoringConfig) (text : String) : ℕ × List String :=
  let text_lower := lowerChars text.data
  let afterKws :=
    cfg.suspicious_keywords.foldl
      (fun acc keyword =>
        if containsSub (lowerChars keyword.data) text_lower then
          (acc.1 + cfg.keyword_weight, acc.2 ++ [keyword])
        else acc)
      ((0 : ℕ), ([] : List String))
  cfg.high_risk_phrases.foldl
    (fun acc phrase =>
      if containsSub (lowerChars phrase.data) text_lower then
        (acc.1 + cfg.keyword_weight * 2, acc.2 ++ [phrase])
      else acc)
    afterKws

/-- `AnalysisEngine.analyze_sentiment`: the TextBlob polarity computation is
external and may fail; its outcome is an explicit argument. A bare `except`
coerces any failure to score 0; on success the fixed bonus applies when the
absolute polarity exceeds 0.5. -/
def analyze_sentiment (cfg : ScoringConfig) (polarity : Except String ℚ) : ℕ :=
  match polarity with
  | .ok p => if |p| > 5 / 10 then cfg.sentiment_weight else 0
  | .error _ => 0

/-- `AnalysisEngine.detect_relationship_escalation`. -/
def detect_relationship_escalation (cfg : ScoringConfig) (text : String) : ℕ :=
  if escalationPatterns.any (fun pat => searchToks pat (lowerChars text.data)) then
    cfg.relationship_escalation_weight
  else 0

/-- `AnalysisEngine.detect_private_info_request`. -/
def detect_private_info_request (cfg : ScoringConfig) (text : String) : ℕ :=
  if privateInfoPatterns.any (fun pat => searchToks pat (lowerChars text.data)) then
    cfg.request_private_info_weight
  else 0

/-- The result dict of `calculate_risk_score`. -/
structure RiskResult where
  risk_score : ℕ
  keywords : String
  analysis_notes : String
  deriving DecidableEq, Repr

/-- `AnalysisEngine.calculate_risk_score`: accumulates the keyword, sentiment,
relationship-escalation and private-info sub-scores, then caps the total at
100. -/
def calculate_risk_score (cfg : ScoringConfig) (message_content : String)
    (polarity : Except String ℚ) : RiskResult :=
  let kw := analyze_keywords cfg message_content
  let keyword_score := kw.1
  let detected_keywords := kw.2
  let sentiment_score := analyze_sentiment cfg polarity
  let escalation_score := detect_relationship_escalation cfg message_content
  let private_info_score := detect_private_info_request cfg message_content
  let analysis_notes :=
    (if escalation_score > 0 then ["Rapid relationship escalation detected"] else []) ++
    (if private_info_score > 0 then ["Potential private information request"] else [])
  let risk_score :=
    min (keyword_score + sentiment_score + escalation_score + private_info_score) 100
  { risk_score := risk_score
    keywords :=
      if detected_keywords.isEmpty then "None"
      else String.intercalate ", " detected_keywords
    analysis_notes :=
      if analysis_notes.isEmpty then "No significant alerts"
      else String.intercalate "; " analysis_notes }

/-! ## Alert resolution (`SecurityDashboard._resolve_alert`) -/

/-- One persisted row of the `security_alerts` table; `payload` stands for the
columns the resolve statement never touches. -/
structure AlertRow where
  alert_id : String
  status : String
  resolved_at : Option ℕ
  payload : String
  deriving DecidableEq, Repr

/-- `_resolve_alert`: the SQL
`UPDATE security_alerts SET status = 'RESOLVED', resolved_at = CURRENT_TIMESTAMP
WHERE alert_id = ?` — every row matching the id gets status `RESOLVED` and a
fresh `resolved_at` stamp; rows not matching (and a nonexistent id) are left
untouched. -/
def resolve_alert (db : List AlertRow) (aid : String) (now : ℕ) : List AlertRow :=
  db.map (fun row =>
    if row.alert_id = aid then
      { row with status := "RESOLVED", resolved_at := some now }
    else row)

/-! ## Concrete fixtures used by witnesses and counterexamples -/

/-- A trained detector whose fitted ensemble returns the constant
probability `p`. -/
def probDetector (p : ℚ) : MLPhishingDetector :=
  { classifierProb := fun _ => .ok p, is_trained := true, feature_names := [] }

/-- An engine with a loaded model around `probDetector p`, sampled at
10:00 on a Tuesday. -/
def probEngine (p : ℚ) : MLFirstAnalysisEngine :=
  { ml_detector := probDetector p, model_loaded := true, hour_of_day := 10, day_of_week := 2 }

/-- A freshly constructed, untrained detector. -/
def untrainedDetector : MLPhishingDetector :=
  { classifierProb := fun _ => .ok 0, is_trained := false, feature_names := [] }

/-- An engine constructed without a model path: `model_loaded` is false. -/
def unloadedEngine : MLFirstAnalysisEngine :=
  { ml_detector := untrainedDetector, model_loaded := false, hour_of_day := 10, day_of_week := 2 }

/-- A loaded engine whose external classifier call raises on the message
`"bad"` and returns probability 1/2 otherwise. -/
def failEngine : MLFirstAnalysisEngine :=
  { ml_detector :=
      { classifierProb := fun t => if t = "bad" then .error "boom" else .ok (1 / 2)
        is_trained := true
        feature_names := [] }
    model_loaded := true
    hour_of_day := 10
    day_of_week := 2 }

/-- A scraped message fixture. -/
def msg0 : MessageData :=
  { senderName := "Alice", senderUrl := none, messageContent := "hello" }

/-- Placeholder report (used only as the `getD` default below). -/
def dummyReport : AnalysisReport :=
  { final_score := 0, risk_level := "", ml_probability := 0, ml_confidence := 0,
    key_indicators := [], behavioral_patterns := [], feature_analysis := extract_advanced_features ""
    temporal_context := { hour_of_day := 0, day_of_week := 0, time_context := "" }
    recommended_action := ""
    threat_classification :=
      { primary_types := [], secondary_types := [], confidence := 0, techniques_detected := [] } }

/-- The report produced by a successful analysis, as a named value. -/
def reportD (e : MLFirstAnalysisEngine) (t : String) : AnalysisReport :=
  ((analyze_message e t).toOption).getD dummyReport

/-- One open alert row. -/
def dbRow0 : AlertRow :=
  { alert_id := "ALT-1", status := "OPEN", resolved_at := none, payload := "x" }

/-! ## Claim theorems -/

/-- C6: for every input string, including the empty string, the feature
extractor returns the complete named feature vector (a total function into
the `Features` record), no feature value is negative, and every ratio
denominator is floored at 1 (in particular `sentence_count ≥ 1`), so no
division by zero occurs. -/
theorem extract_advanced_features_complete_nonneg (text : String) :
    1 ≤ (extract_advanced_features text).sentence_count ∧
    1 ≤ max (extract_advanced_features text).word_count 1 ∧
    1 ≤ max (extract_advanced_features text).text_length 1 ∧
    0 ≤ (extract_advanced_features text).avg_sentence_length ∧
    0 ≤ (extract_advanced_features text).avg_word_length ∧
    0 ≤ (extract_advanced_features text).capital_ratio ∧
    0 ≤ (extract_advanced_features text).unique_word_ratio ∧
    0 ≤ (extract_advanced_features text).text_length ∧
    0 ≤ (extract_advanced_features text).word_count ∧
    0 ≤ (extract_advanced_features text).urgency_score ∧
    0 ≤ (extract_advanced_features text).authority_score ∧
    0 ≤ (extract_advanced_features text).scarcity_score ∧
    0 ≤ (extract_advanced_features text).social_proof_score ∧
    0 ≤ (extract_advanced_features text).info_request_score ∧
    0 ≤ (extract_advanced_features text).financial_score ∧
    0 ≤ (extract_advanced_features text).platform_migration_score ∧
    0 ≤ (extract_advanced_features text).question_marks ∧
    0 ≤ (extract_advanced_features text).exclamation_marks ∧
    0 ≤ (extract_advanced_features text).link_count ∧
    0 ≤ (extract_advanced_features text).long_word_count ∧
    0 ≤ (extract_advanced_features text).positive_emotion_score ∧
    0 ≤ (extract_advanced_features text).negative_emotion_score := by
  refine ⟨?_, ?_, ?_, ?_, ?_, ?_, ?_, ?_, ?_, ?_, ?_, ?_, ?_, ?_, ?_, ?_, ?_, ?_, ?_, ?_,
    ?_, ?_⟩ <;>
    simp only [extract_advanced_features] <;>
    first
      | exact le_max_right _ 1
      | exact Nat.zero_le _
      | positivity

/-- C5: prediction before the model is trained, and orchestrated analysis
before a model is loaded, fail with the model-not-trained diagnostics and
return no probability. -/
theorem predict_requires_trained_model (d : MLPhishingDetector) (e : MLFirstAnalysisEngine)
    (text : String) (hd : d.is_trained = false) (he : e.model_loaded = false) :
    predict d text = Except.error "Model must be trained before making predictions" ∧
    analyze_message e text =
      Except.error "ML model must be loaded before analysis. Run load_model() first." := by
  constructor
  · simp [predict, hd]
  · simp [analyze_message, he]

/-- Witness for C5 at a concrete untrained detector and unloaded engine. -/
theorem predict_requires_trained_model_witness :
    predict untrainedDetector "hello" =
      Except.error "Model must be trained before making predictions" ∧
    analyze_message unloadedEngine "hello" =
      Except.error "ML model must be loaded before analysis. Run load_model() first." :=
  predict_requires_trained_model untrainedDetector unloadedEngine "hello" rfl rfl

/-- C10: a failure of the external sentiment analysis is silently coerced to
a zero score contribution, so `calculate_risk_score` completes and its result
is indistinguishable from an analysis whose polarity was a benign 0. -/
theorem analyze_sentiment_failure_invisible (cfg : ScoringConfig) (text : String)
    (e : String) :
    analyze_sentiment cfg (Except.error e) = 0 ∧
    calculate_risk_score cfg text (Except.error e) =
      calculate_risk_score cfg text (Except.ok 0) := by
  constructor
  · rfl
  · have h0 : analyze_sentiment cfg (Except.ok 0) = 0 := by
      norm_num [analyze_sentiment]
    have he : analyze_sentiment cfg (Except.error e) = 0 := rfl
    simp [calculate_risk_score, h0, he]

/-- C1: `load_model` as written calls `pickle.dump(f)` instead of
`pickle.load(f)`, so loading a freshly saved model raises a `TypeError` and
the save/load round trip can never reproduce predictions; the intended
load (reading the pickled dict back) restores the detector exactly. -/
theorem save_load_roundtrip_broken :
    load_model (probDetector (1 / 2)) (save_model (probDetector (1 / 2))) =
      Except.error "TypeError: dump() missing 1 required positional argument: 'file'" ∧
    ∀ (d d' : MLPhishingDetector),
      load_model_intended d' (save_model d) = Except.ok d := by
  constructor
  · rfl
  · intro d d'
    rfl

/-- C7: with a loaded model, batch analysis maps the per-message analysis
independently over the whole list (so no failure aborts the batch), and any
message whose analysis raises becomes an error entry with `final_score = 0`
and `risk_level = UNKNOWN`. -/
theorem batch_analyze_isolates_failures (e : MLFirstAnalysisEngine)
    (messages : List String) (h : e.model_loaded = true) :
    batch_analyze e messages = Except.ok (messages.map (batchEntry e)) ∧
    (∀ rs, batch_analyze e messages = Except.ok rs → rs.length = messages.length) ∧
    (∀ m err, analyze_message e m = Except.error err →
      batchEntry e m = BatchResult.failed err ∧
      (batchEntry e m).finalScore = 0 ∧
      (batchEntry e m).riskLevel = "UNKNOWN") := by
  refine ⟨?_, ?_, ?_⟩
  · simp [batch_analyze, h]
  · intro rs hrs
    simp [batch_analyze, h] at hrs
    simp [← hrs]
  · intro m err herr
    simp [batchEntry, herr, BatchResult.finalScore, BatchResult.riskLevel]

/-- Witness for C7: a concrete loaded engine whose classifier raises on the
second message; the batch still yields entries for every message. -/
theorem batch_analyze_isolates_failures_witness :
    batch_analyze failEngine ["good", "bad"] =
      Except.ok (["good", "bad"].map (batchEntry failEngine)) ∧
    (∀ rs, batch_analyze failEngine ["good", "bad"] = Except.ok rs →
      rs.length = ["good", "bad"].length) ∧
    (∀ m err, analyze_message failEngine m = Except.error err →
      batchEntry failEngine m = BatchResult.failed err ∧
      (batchEntry failEngine m).finalScore = 0 ∧
      (batchEntry failEngine m).riskLevel = "UNKNOWN") :=
  batch_analyze_isolates_failures failEngine ["good", "bad"] rfl

/-- C8 counterexample: resolving the same alert twice at different wall-clock
times does change the stored record — the second call re-stamps
`resolved_at` — so the second call is not a no-op on the stored record. -/
theorem resolve_alert_second_call_changes_record :
    resolve_alert (resolve_alert [dbRow0] "ALT-1" 1) "ALT-1" 2 ≠
      resolve_alert [dbRow0] "ALT-1" 1 := by
  decide

/-- C8 (amended): `resolve` stamps status `RESOLVED` and `resolved_at`;
a second resolve raises no error and is absorbed by last-write-wins (it is a
true no-op exactly when the timestamp is unchanged, and otherwise only
re-stamps `resolved_at`); resolving an id matching no row leaves the table
untouched. -/
theorem resolve_alert_restamps (db : List AlertRow) (aid : String) (t1 t2 : ℕ) :
    resolve_alert (resolve_alert db aid t1) aid t2 = resolve_alert db aid t2 ∧
    resolve_alert (resolve_alert db aid t1) aid t1 = resolve_alert db aid t1 ∧
    (∀ row ∈ resolve_alert db aid t1, row.alert_id = aid →
      row.status = "RESOLVED" ∧ row.resolved_at = some t1) ∧
    ((∀ row ∈ db, row.alert_id ≠ aid) → resolve_alert db aid t1 = db) := by
  refine ⟨?_, ?_, ?_, ?_⟩
  · simp only [resolve_alert, List.map_map]
    apply List.map_congr_left
    intro row _
    by_cases hrow : row.alert_id = aid <;> simp [Function.comp, hrow]
  · simp only [resolve_alert, List.map_map]
    apply List.map_congr_left
    intro row _
    by_cases hrow : row.alert_id = aid <;> simp [Function.comp, hrow]
  · intro row hrow hid
    simp only [resolve_alert, List.mem_map] at hrow
    obtain ⟨src, _, hsrc⟩ := hrow
    subst hsrc
    by_cases hs : src.alert_id = aid
    · simp [hs]
    · simp [hs] at hid
  · intro hmiss
    simp only [resolve_alert]
    conv_rhs => rw [← List.map_id db]
    apply List.map_congr_left
    intro row hrow
    simp [hmiss row hrow]

/-- Witness for C8 (amended): a double resolve at equal and differing
timestamps on a concrete table, and a resolve of a nonexistent id leaving
the table unchanged. -/
theorem resolve_alert_restamps_witness :
    resolve_alert (resolve_alert [dbRow0] "ALT-1" 1) "ALT-1" 2 =
      resolve_alert [dbRow0] "ALT-1" 2 ∧
    resolve_alert [dbRow0] "ALT-9" 3 = [dbRow0] :=
  ⟨(resolve_alert_restamps [dbRow0] "ALT-1" 1 2).1,
   (resolve_alert_restamps [dbRow0] "ALT-9" 3 3).2.2.2 (by decide)⟩

/-! ## Helper lemmas -/

/-- Python `int()` on a nonnegative value is the floor. -/
lemma pyInt_eq_floor_of_nonneg (q : ℚ) (h : 0 ≤ q) : pyInt q = ⌊q⌋ := by
  simp [pyInt, not_lt.mpr h]

/-- A successful analysis produces the report whose `final_score` is
`int(p * 100)` and whose `risk_level` is the classifier's tier bucketing. -/
lemma analyze_message_ok_spec (e : MLFirstAnalysisEngine) (t : String) (p : ℚ)
    (hload : e.model_loaded = true) (htr : e.ml_detector.is_trained = true)
    (hp : e.ml_detector.classifierProb t = Except.ok p) :
    ∃ r, analyze_message e t = Except.ok r ∧
      r.final_score = pyInt (p * 100) ∧
      r.risk_level =
        (if 8 / 10 < p then "CRITICAL"
         else if 6 / 10 < p then "HIGH"
         else if 4 / 10 < p then "MEDIUM"
         else "LOW") := by
  simp only [analyze_message, predict, hload, htr, hp, Bool.not_true, Bool.false_eq_true,
    if_false, ite_false]
  refine ⟨_, rfl, rfl, ?_⟩
  simp [generate_detailed_explanation]

/-- Unfolds `process_message_as_alert` over a successful analysis. -/
lemma process_eq (e : MLFirstAnalysisEngine) (msg : MessageData) (r : AnalysisReport)
    (hr : analyze_message e msg.messageContent = Except.ok r) :
    process_message_as_alert e msg =
      if r.final_score ≥ 40 then Except.ok (some (mkAlertData msg r), r)
      else Except.ok (none, r) := by
  simp only [process_message_as_alert, hr]

/-- Unfolds `reportD` over a successful analysis. -/
lemma reportD_eq (e : MLFirstAnalysisEngine) (t : String) (r : AnalysisReport)
    (hr : analyze_message e t = Except.ok r) : reportD e t = r := by
  simp [reportD, hr, Except.toOption]

/-- C2 counterexample: with a loaded model returning probability `0.567`, the
orchestrator's `final_score` is the truncation 56, while
`round(probability × 100)` is 57. -/
theorem final_score_truncates_not_rounds :
    (analyze_message (probEngine (567 / 1000)) "hello").map (fun r => r.final_score) =
      Except.ok 56 ∧
    round ((567 / 1000 : ℚ) * 100) = 57 ∧ (56 : ℤ) ≠ 57 := by
  refine ⟨?_, by norm_num [round_eq], by decide⟩
  obtain ⟨r, hr, hfs, -⟩ :=
    analyze_message_ok_spec (probEngine (567 / 1000)) "hello" (567 / 1000) rfl rfl rfl
  rw [hr]
  simp only [Except.map, Except.ok.injEq]
  rw [hfs]
  norm_num [pyInt]

/-- C2 (amended): for every message analyzed with a loaded model, the
orchestrator's `final_score` equals `⌊probability × 100⌋` (Python `int()`
truncation of the nonnegative product, not rounding), and it always lies in
`[0, 100]` for a probability in `[0, 1]`. -/
theorem analyze_message_final_score_floor (e : MLFirstAnalysisEngine) (t : String) (p : ℚ)
    (hload : e.model_loaded = true) (htr : e.ml_detector.is_trained = true)
    (hp : e.ml_detector.classifierProb t = Except.ok p)
    (h0 : 0 ≤ p) (h1 : p ≤ 1) :
    ∃ r, analyze_message e t = Except.ok r ∧
      r.final_score = ⌊p * 100⌋ ∧ 0 ≤ r.final_score ∧ r.final_score ≤ 100 := by
  obtain ⟨r, hr, hfs, _⟩ := analyze_message_ok_spec e t p hload htr hp
  have hq : (0 : ℚ) ≤ p * 100 := by positivity
  have hfloor : r.final_score = ⌊p * 100⌋ := by
    rw [hfs, pyInt_eq_floor_of_nonneg _ hq]
  refine ⟨r, hr, hfloor, ?_, ?_⟩
  · rw [hfloor]
    exact Int.floor_nonneg.mpr hq
  · rw [hfloor]
    calc ⌊p * 100⌋ ≤ ⌊(100 : ℚ)⌋ := Int.floor_le_floor (by nlinarith)
      _ = 100 := by norm_num

/-- Witness for C2 (amended) at probability 1/2 on a concrete engine. -/
theorem analyze_message_final_score_floor_witness :
    ∃ r, analyze_message (probEngine (1 / 2)) "hi" = Except.ok r ∧
      r.final_score = ⌊(1 / 2 : ℚ) * 100⌋ ∧ 0 ≤ r.final_score ∧ r.final_score ≤ 100 :=
  analyze_message_final_score_floor (probEngine (1 / 2)) "hi" (1 / 2) rfl rfl rfl
    (by norm_num) (by norm_num)

/-- C3 counterexample: at probability exactly 0.4 the final score is 40, an
alert is created, but its severity is LOW, not MEDIUM (the MEDIUM tier
requires probability strictly above 0.4). -/
theorem score40_alert_severity_low :
    (process_message_as_alert (probEngine (2 / 5)) msg0).map
      (fun pr => (pr.1.map (fun a => a.severity), pr.2.final_score)) =
      Except.ok (some "LOW", 40) ∧ "LOW" ≠ "MEDIUM" := by
  refine ⟨?_, by decide⟩
  obtain ⟨r, hr, hfs, hrl⟩ :=
    analyze_message_ok_spec (probEngine (2 / 5)) msg0.messageContent (2 / 5) rfl rfl rfl
  have hfs' : r.final_score = 40 := by
    rw [hfs]
    norm_num [pyInt]
  have hrl' : r.risk_level = "LOW" := by
    rw [hrl]
    norm_num
  rw [process_eq (probEngine (2 / 5)) msg0 r hr,
    if_pos (show r.final_score ≥ 40 by rw [hfs'])]
  simp only [Except.map, Option.map, Except.ok.injEq, mkAlertData]
  rw [hrl', hfs']

/-- C3 (amended): an alert is created iff `final_score ≥ 40` (so a score of
39 produces none and a score of 40 produces one), the alert's severity is the
analysis risk level, and for `final_score = 40` that severity is MEDIUM
whenever the probability exceeds 0.4 and LOW in the boundary case of
probability exactly 0.4. -/
theorem process_message_alert_threshold (e : MLFirstAnalysisEngine) (msg : MessageData)
    (p : ℚ) (hload : e.model_loaded = true) (htr : e.ml_detector.is_trained = true)
    (hp : e.ml_detector.classifierProb msg.messageContent = Except.ok p)
    (h0 : 0 ≤ p) (h1 : p ≤ 1) :
    ∃ r, analyze_message e msg.messageContent = Except.ok r ∧
      (40 ≤ r.final_score →
        process_message_as_alert e msg = Except.ok (some (mkAlertData msg r), r) ∧
        (mkAlertData msg r).severity = r.risk_level ∧
        (mkAlertData msg r).risk_score = r.final_score) ∧
      (r.final_score < 40 → process_message_as_alert e msg = Except.ok (none, r)) ∧
      (r.final_score = 40 →
        ((2 / 5 : ℚ) < p → r.risk_level = "MEDIUM") ∧
        (p = 2 / 5 → r.risk_level = "LOW")) := by
  obtain ⟨r, hr, hfs, hrl⟩ := analyze_message_ok_spec e msg.messageContent p hload htr hp
  have hq : (0 : ℚ) ≤ p * 100 := by positivity
  have hfloor : r.final_score = ⌊p * 100⌋ := by
    rw [hfs, pyInt_eq_floor_of_nonneg _ hq]
  refine ⟨r, hr, ?_, ?_, ?_⟩
  · intro h40
    refine ⟨?_, by simp [mkAlertData], by simp [mkAlertData]⟩
    simp [process_message_as_alert, hr, h40]
  · intro h40
    simp [process_message_as_alert, hr, not_le.mpr h40]
  · intro h40
    rw [hfloor] at h40
    obtain ⟨hlo, hhi⟩ := Int.floor_eq_iff.mp h40
    constructor
    · intro hgt
      rw [hrl, if_neg (by push_cast at hhi; intro hc; nlinarith),
        if_neg (by push_cast at hhi; intro hc; nlinarith),
        if_pos (by linarith)]
    · intro heq
      subst heq
      rw [hrl]
      norm_num

/-- Witness for C3 (amended) at probability 0.55 on a concrete engine. -/
theorem process_message_alert_threshold_witness :
    ∃ r, analyze_message (probEngine (55 / 100)) msg0.messageContent = Except.ok r ∧
      (40 ≤ r.final_score →
        process_message_as_alert (probEngine (55 / 100)) msg0 =
          Except.ok (some (mkAlertData msg0 r), r) ∧
        (mkAlertData msg0 r).severity = r.risk_level ∧
        (mkAlertData msg0 r).risk_score = r.final_score) ∧
      (r.final_score < 40 →
        process_message_as_alert (probEngine (55 / 100)) msg0 = Except.ok (none, r)) ∧
      (r.final_score = 40 →
        ((2 / 5 : ℚ) < (55 / 100 : ℚ) → r.risk_level = "MEDIUM") ∧
        ((55 / 100 : ℚ) = 2 / 5 → r.risk_level = "LOW")) :=
  process_message_alert_threshold (probEngine (55 / 100)) msg0 (55 / 100) rfl rfl rfl
    (by norm_num) (by norm_num)

/-- C4 counterexample: probability 0.81 yields a created alert with severity
CRITICAL but risk score 81, below the claimed CRITICAL floor of 85. -/
theorem critical_alert_risk_score_81 :
    (process_message_as_alert (probEngine (81 / 100)) msg0).map
      (fun pr => pr.1.map (fun a => (a.severity, a.risk_score))) =
      Except.ok (some ("CRITICAL", 81)) ∧ ¬ (85 ≤ (81 : ℤ)) := by
  refine ⟨?_, by decide⟩
  obtain ⟨r, hr, hfs, hrl⟩ :=
    analyze_message_ok_spec (probEngine (81 / 100)) msg0.messageContent (81 / 100) rfl rfl rfl
  have hfs' : r.final_score = 81 := by
    rw [hfs]
    norm_num [pyInt]
  have hrl' : r.risk_level = "CRITICAL" := by
    rw [hrl]
    norm_num
  rw [process_eq (probEngine (81 / 100)) msg0 r hr,
    if_pos (show r.final_score ≥ 40 by rw [hfs']; norm_num)]
  simp only [Except.map, Option.map, Except.ok.injEq, mkAlertData]
  rw [hrl', hfs']

/-- C4 (amended): every alert created from a successful analysis with
probability `p ∈ [0,1]` has a risk score monotone in its severity band with
the floors actually enforced by the tier thresholds and `int(p*100)`:
CRITICAL ⇒ risk_score ≥ 80, HIGH ⇒ risk_score ≥ 60, MEDIUM ⇒ risk_score ≥ 40,
LOW ⇒ risk_score ≥ 0 (bands ordered 80 > 60 > 40 > 0). -/
theorem alert_risk_score_severity_bands (e : MLFirstAnalysisEngine) (msg : MessageData)
    (p : ℚ) (a : AlertData) (r : AnalysisReport)
    (hload : e.model_loaded = true) (htr : e.ml_detector.is_trained = true)
    (hp : e.ml_detector.classifierProb msg.messageContent = Except.ok p)
    (h0 : 0 ≤ p) (_h1 : p ≤ 1)
    (halert : process_message_as_alert e msg = Except.ok (some a, r)) :
    (a.severity = "CRITICAL" → 80 ≤ a.risk_score) ∧
    (a.severity = "HIGH" → 60 ≤ a.risk_score) ∧
    (a.severity = "MEDIUM" → 40 ≤ a.risk_score) ∧
    (a.severity = "LOW" → 0 ≤ a.risk_score) := by
  obtain ⟨r', hr', hfs, hrl⟩ := analyze_message_ok_spec e msg.messageContent p hload htr hp
  have hq : (0 : ℚ) ≤ p * 100 := by positivity
  have hfloor : r'.final_score = ⌊p * 100⌋ := by
    rw [hfs, pyInt_eq_floor_of_nonneg _ hq]
  rw [process_eq e msg r' hr'] at halert
  by_cases h40 : r'.final_score ≥ 40
  · rw [if_pos h40] at halert
    simp only [Except.ok.injEq, Prod.mk.injEq, Option.some.injEq] at halert
    obtain ⟨ha, -⟩ := halert
    have hsev : a.severity =
        (if 8 / 10 < p then "CRITICAL"
         else if 6 / 10 < p then "HIGH"
         else if 4 / 10 < p then "MEDIUM"
         else "LOW") := by
      rw [← ha]
      simpa [mkAlertData] using hrl
    have hsc : a.risk_score = ⌊p * 100⌋ := by
      rw [← ha]
      simpa [mkAlertData] using hfloor
    rcases lt_or_le (8 / 10 : ℚ) p with h8 | h8
    · have hs : a.severity = "CRITICAL" := by rw [hsev, if_pos h8]
      refine ⟨fun _ => ?_, fun hh => ?_, fun hh => ?_, fun hh => ?_⟩
      · rw [hsc]
        exact Int.le_floor.mpr (by push_cast; nlinarith)
      · rw [hs] at hh
        exact absurd hh (by decide)
      · rw [hs] at hh
        exact absurd hh (by decide)
      · rw [hs] at hh
        exact absurd hh (by decide)
    · rcases lt_or_le (6 / 10 : ℚ) p with h6 | h6
      · have hs : a.severity = "HIGH" := by
          rw [hsev, if_neg (not_lt.mpr h8), if_pos h6]
        refine ⟨fun hh => ?_, fun _ => ?_, fun hh => ?_, fun hh => ?_⟩
        · rw [hs] at hh
          exact absurd hh (by decide)
        · rw [hsc]
          exact Int.le_floor.mpr (by push_cast; nlinarith)
        · rw [hs] at hh
          exact absurd hh (by decide)
        · rw [hs] at hh
          exact absurd hh (by decide)
      · rcases lt_or_le (4 / 10 : ℚ) p with h4 | h4
        · have hs : a.severity = "MEDIUM" := by
            rw [hsev, if_neg (not_lt.mpr h8), if_neg (not_lt.mpr h6), if_pos h4]
          refine ⟨fun hh => ?_, fun hh => ?_, fun _ => ?_, fun hh => ?_⟩
          · rw [hs] at hh
            exact absurd hh (by decide)
          · rw [hs] at hh
            exact absurd hh (by decide)
          · rw [hsc]
            exact Int.le_floor.mpr (by push_cast; nlinarith)
          · rw [hs] at hh
            exact absurd hh (by decide)
        · have hs : a.severity = "LOW" := by
            rw [hsev, if_neg (not_lt.mpr h8), if_neg (not_lt.mpr h6), if_neg (not_lt.mpr h4)]
          refine ⟨fun hh => ?_, fun hh => ?_, fun hh => ?_, fun _ => ?_⟩
          · rw [hs] at hh
            exact absurd hh (by decide)
          · rw [hs] at hh
            exact absurd hh (by decide)
          · rw [hs] at hh
            exact absurd hh (by decide)
          · rw [hsc]
            exact Int.floor_nonneg.mpr hq
  · rw [if_neg h40] at halert
    simp at halert

/-- Witness for C4 (amended): a concrete alert created at probability 0.85
satisfies every band implication. -/
theorem alert_risk_score_severity_bands_witness :
    ((mkAlertData msg0 (reportD (probEngine (85 / 100)) "hello")).severity = "CRITICAL" →
      80 ≤ (mkAlertData msg0 (reportD (probEngine (85 / 100)) "hello")).risk_score) ∧
    ((mkAlertData msg0 (reportD (probEngine (85 / 100)) "hello")).severity = "HIGH" →
      60 ≤ (mkAlertData msg0 (reportD (probEngine (85 / 100)) "hello")).risk_score) ∧
    ((mkAlertData msg0 (reportD (probEngine (85 / 100)) "hello")).severity = "MEDIUM" →
      40 ≤ (mkAlertData msg0 (reportD (probEngine (85 / 100)) "hello")).risk_score) ∧
    ((mkAlertData msg0 (reportD (probEngine (85 / 100)) "hello")).severity = "LOW" →
      0 ≤ (mkAlertData msg0 (reportD (probEngine (85 / 100)) "hello")).risk_score) :=
  alert_risk_score_severity_bands (probEngine (85 / 100)) msg0 (85 / 100)
    (mkAlertData msg0 (reportD (probEngine (85 / 100)) "hello"))
    (reportD (probEngine (85 / 100)) "hello")
    rfl rfl rfl (by norm_num) (by norm_num)
    (by
      obtain ⟨r, hr, hfs, -⟩ :=
        analyze_message_ok_spec (probEngine (85 / 100)) msg0.messageContent (85 / 100)
          rfl rfl rfl
      rw [process_eq (probEngine (85 / 100)) msg0 r hr,
        if_pos (show r.final_score ≥ 40 by rw [hfs]; norm_num [pyInt]),
        reportD_eq (probEngine (85 / 100)) "hello" r hr])

/-- Score contribution of the keyword-scan fold in `analyze_keywords`: each
hit adds the fixed weight once. -/
lemma keyword_fold_score (w : ℕ) (hit : String → Bool) (l : List String) (s : ℕ)
    (d : List String) :
    (l.foldl (fun acc k => if hit k then (acc.1 + w, acc.2 ++ [k]) else acc) (s, d)).1 =
      s + w * (l.filter hit).length := by
  induction l generalizing s d with
  | nil => simp
  | cons x xs ih =>
    by_cases hx : hit x
    · simp only [List.foldl_cons, hx, if_true, List.filter_cons_of_pos, ih, List.length_cons]
      ring
    · simp only [List.foldl_cons, hx, if_false, List.filter_cons_of_neg, ih,
        Bool.false_eq_true, not_false_eq_true]

/-- C9: the rule-based risk score accumulates a fixed weight per suspicious
keyword hit, double that weight per high-risk-phrase hit, the fixed sentiment
bonus when the absolute polarity exceeds the 0.5 threshold, and the fixed
relationship-escalation and private-info-request weights on a pattern match,
with the total clamped to `[0, 100]`. -/
theorem calculate_risk_score_accumulation (cfg : ScoringConfig) (text : String)
    (polarity : Except String ℚ) :
    (calculate_risk_score cfg text polarity).risk_score =
      min (cfg.keyword_weight * ((cfg.suspicious_keywords.filter
              (fun k => containsSub (lowerChars k.data) (lowerChars text.data))).length)
           + cfg.keyword_weight * 2 * ((cfg.high_risk_phrases.filter
              (fun s => containsSub (lowerChars s.data) (lowerChars text.data))).length)
           + analyze_sentiment cfg polarity
           + detect_relationship_escalation cfg text
           + detect_private_info_request cfg text) 100 ∧
    (calculate_risk_score cfg text polarity).risk_score ≤ 100 ∧
    analyze_sentiment cfg polarity =
      (match polarity with
       | Except.ok p => if |p| > 5 / 10 then cfg.sentiment_weight else 0
       | Except.error _ => 0) ∧
    detect_relationship_escalation cfg text =
      (if escalationPatterns.any (fun pat => searchToks pat (lowerChars text.data)) then
        cfg.relationship_escalation_weight else 0) ∧
    detect_private_info_request cfg text =
      (if privateInfoPatterns.any (fun pat => searchToks pat (lowerChars text.data)) then
        cfg.request_private_info_weight else 0) := by
  have hk : (analyze_keywords cfg text).1 =
      cfg.keyword_weight * ((cfg.suspicious_keywords.filter
          (fun k => containsSub (lowerChars k.data) (lowerChars text.data))).length)
        + cfg.keyword_weight * 2 * ((cfg.high_risk_phrases.filter
          (fun s => containsSub (lowerChars s.data) (lowerChars text.data))).length) := by
    simp only [analyze_keywords]
    rw [keyword_fold_score, keyword_fold_score, Nat.zero_add]
  refine ⟨?_, ?_, rfl, rfl, rfl⟩
  · simp only [calculate_risk_score]
    rw [hk]
  · simp only [calculate_risk_score]
    exact min_le_right _ 100

end HoneyShield
